import Mathlib

/-!
Shallow embedding of the strategy-prediction and telemetry-comparison core
of `src/utils/f1_data.py` (`predict_strategy`, `get_detailed_telemetry`).

Lap times and telemetry samples are modelled as exact rationals; the external
FastF1 session loader is modelled as an explicit function argument
`load : ℤ → String → String → Option Session` mirroring `get_session_safe`
(which returns the loaded session, or `None` on any resolution failure).
Python's `round(x, n)` is banker's rounding (round half to even), embedded
as `pyRound`.  Python's `int(...)` coercion of the `stops` argument is
embedded as `pyInt` over a value that is either an integer or a string,
failing with a `ValueError`-style message on non-numeric strings.
-/

/-- Round half to even (banker's rounding), as used by Python's `round`. -/
def roundHalfEven (q : ℚ) : ℤ :=
  let f := ⌊q⌋
  if q - f < 1/2 then f
  else if 1/2 < q - f then f + 1
  else if f % 2 = 0 then f else f + 1

/-- Python's `round(q, n)`: round to `n` decimal digits, ties to even. -/
def pyRound (n : ℕ) (q : ℚ) : ℚ :=
  (roundHalfEven (q * 10 ^ n) : ℚ) / 10 ^ n

/-- Does `l` start with `p`? (over character lists, kernel-computable). -/
def startsWithChars : List Char → List Char → Bool
  | [], _ => true
  | _ :: _, [] => false
  | a :: as, b :: bs => a == b && startsWithChars as bs

/-- Does `hay` contain `needle` as a contiguous substring? -/
def hasSubChars (needle : List Char) : List Char → Bool
  | [] => startsWithChars needle []
  | c :: rest => startsWithChars needle (c :: rest) || hasSubChars needle rest

/-- Drop everything up to and including the first occurrence of `sep`;
`none` if `sep` does not occur. -/
def dropThroughSep (sep : List Char) : List Char → Option (List Char)
  | [] => none
  | c :: rest =>
      if startsWithChars sep (c :: rest) then some (List.drop (sep.length - 1) rest)
      else dropThroughSep sep rest

/-- Iterate `dropThroughSep` to reach the suffix after the last occurrence
of `sep`; the fuel is an upper bound on the number of iterations. -/
def afterLastSepFuel (sep : List Char) : ℕ → List Char → List Char
  | 0, l => l
  | fuel + 1, l =>
      match dropThroughSep sep l with
      | none => l
      | some r => afterLastSepFuel sep fuel r

/-- Python's `str(td).split(' days ')[-1]` applied to a timedelta string:
the suffix after the last occurrence of `" days "`. -/
def stripDays (s : String) : String :=
  ⟨afterLastSepFuel " days ".data s.data.length s.data⟩

/-- Accumulate a decimal digit string; `none` on a non-digit character. -/
def digitsVal : List Char → ℕ → Option ℕ
  | [], acc => some acc
  | c :: cs, acc =>
      if c.isDigit then digitsVal cs (acc * 10 + (c.toNat - 48)) else none

/-- Parse a (signed) decimal integer literal the way Python's `int` does. -/
def parseIntStr (s : String) : Option ℤ :=
  match s.data with
  | [] => none
  | '-' :: rest =>
      if rest.isEmpty then none else (digitsVal rest 0).map (fun n => -(n : ℤ))
  | '+' :: rest =>
      if rest.isEmpty then none else (digitsVal rest 0).map (fun n => (n : ℤ))
  | l => (digitsVal l 0).map (fun n => (n : ℤ))

/-- A Python value passed for the `stops` parameter: the web form passes a
string, direct callers may pass an integer. -/
inductive PyVal where
  | int (n : ℤ)
  | str (s : String)
  deriving DecidableEq

/-- Python's `int(v)`: identity on integers; decimal parse on strings,
raising (`Except.error`) a `ValueError` message on failure. -/
def pyInt : PyVal → Except String ℤ
  | .int n => .ok n
  | .str s =>
      match parseIntStr s with
      | some n => .ok n
      | none => .error ("invalid literal for int() with base 10: " ++ s)

/-- One recorded lap of a loaded session.  `lapNumber`/`lapTime` are `none`
when the underlying cell is NaN/NaT (dropped by `dropna`); `isQuick` is
whether `pick_quicklaps` keeps the lap (representative, no SC/VSC anomaly);
`telemetry` is the `(Distance, Speed)` sample sequence of the lap, `none`
when `get_telemetry` raises; `lapTimeStr` is the `str()` rendering of the
`LapTime` timedelta. -/
structure Lap where
  lapNumber : Option ℚ
  lapTime : Option ℚ
  lapTimeStr : String
  driver : String
  isQuick : Bool
  telemetry : Option (List (ℚ × ℚ))
  deriving DecidableEq

/-- One row of `session.results`.  Fields are `none` when the column is
missing or the cell malformed (access then raises `KeyError`/`ValueError`). -/
structure ResultRow where
  position : Option ℚ
  abbreviation : Option String
  teamName : Option String
  time : Option String
  deriving DecidableEq

/-- A loaded FastF1 session: laps, classification rows, event name. -/
structure Session where
  laps : List Lap
  results : List ResultRow
  eventName : String
  deriving DecidableEq

/-- The dictionary returned by a successful `predict_strategy`. -/
structure Strategy where
  total_time_min : ℚ
  degradation : ℚ
  stop_recommendation : String
  deriving DecidableEq

/-- `session.laps.pick_quicklaps().dropna(subset=['LapNumber', 'LapTime'])`:
the representative laps used to fit the degradation model. -/
def representativeLaps (session : Session) : List Lap :=
  (session.laps.filter (fun l => l.isQuick)).filter
    (fun l => l.lapNumber.isSome && l.lapTime.isSome)

/-- The `(LapNumber, LapTime.total_seconds())` pairs fed to the regression. -/
def lapPoints (laps : List Lap) : List (ℚ × ℚ) :=
  laps.map (fun l => (l.lapNumber.getD 0, l.lapTime.getD 0))

/-- Ordinary least squares for `sklearn.LinearRegression` with one feature:
`(slope, intercept)`.  A zero-variance feature gives slope 0 (the minimum
norm solution of the centered system). -/
def fitLinear (pts : List (ℚ × ℚ)) : ℚ × ℚ :=
  let n : ℚ := pts.length
  let xbar := (pts.map (fun p => p.1)).sum / n
  let ybar := (pts.map (fun p => p.2)).sum / n
  let sxx := (pts.map (fun p => (p.1 - xbar) ^ 2)).sum
  let sxy := (pts.map (fun p => (p.1 - xbar) * (p.2 - ybar))).sum
  let slope := if sxx = 0 then 0 else sxy / sxx
  (slope, ybar - slope * xbar)

/-- The fixed pit-window lookup of `predict_strategy`: 1 stop → lap 25,
2 stops → laps 18 and 38, anything else → no tagged laps. -/
def stop_laps (stops : ℤ) : List ℕ :=
  if stops = 1 then [25] else if stops = 2 then [18, 38] else []

/-- One iteration of the aggregation loop: compound delta
(SOFT −0.5 s, HARD +0.5 s, otherwise none) then the 22.0 s pit penalty on
tagged laps. -/
def adjustLap (compound : String) (stopLaps : List ℕ) (lapNum : ℕ) (t : ℚ) : ℚ :=
  let t1 := if compound = "SOFT" then t - 1/2
            else if compound = "HARD" then t + 1/2 else t
  if lapNum ∈ stopLaps then t1 + 22 else t1

/-- `race_time_total`: the loop over `base_pace = model.predict(1..57)`
accumulating adjusted lap times. -/
def raceTimeTotal (slope intercept : ℚ) (compound : String)
    (stopLaps : List ℕ) : ℚ :=
  ((List.range 57).map
    (fun i => adjustLap compound stopLaps (i + 1)
      (slope * ((i : ℚ) + 1) + intercept))).sum

/-- The success-path result dictionary of `predict_strategy`. -/
def strategyResult (session : Session) (compound : String) (stopsInt : ℤ) :
    Strategy :=
  let fit := fitLinear (lapPoints (representativeLaps session))
  let sl := stop_laps stopsInt
  let total := raceTimeTotal fit.1 fit.2 compound sl
  { total_time_min := pyRound 2 (total / 60)
    degradation := pyRound 4 fit.1
    stop_recommendation :=
      if 0 < stopsInt then
        String.intercalate ", " (sl.map (fun x => "Lap " ++ toString x))
      else "No Stops" }

/-- `str(e)` of the `ValueError` sklearn raises when `fit` receives the
empty design matrix built from zero filtered laps. -/
def fitEmptyMsg : String :=
  "Found array with 0 sample(s) (shape=(0, 1)) while a minimum of 1 is required by LinearRegression."

/-- `predict_strategy(track, compound, stops)`.  The loader failure, the
empty-regression `ValueError` and the `int(stops)` `ValueError` are the
three ways the function reaches its `(None, error)` branch; everything
else is the pure success computation. -/
def predict_strategy (load : ℤ → String → String → Option Session)
    (track compound : String) (stops : PyVal) :
    Option Strategy × Option String :=
  match load 2023 track "R" with
  | none => (none, some "Historical data unavailable for this track.")
  | some session =>
      if (representativeLaps session).isEmpty then (none, some fitEmptyMsg)
      else
        match pyInt stops with
        | .error e => (none, some e)
        | .ok n => (some (strategyResult session compound n), none)

/-- `laps.pick_driver(d)`. -/
def pick_driver (d : String) (laps : List Lap) : List Lap :=
  laps.filter (fun l => l.driver == d)

/-- `laps.pick_quicklaps()`. -/
def pick_quicklaps (laps : List Lap) : List Lap :=
  laps.filter (fun l => l.isQuick)

/-- `laps.pick_fastest()`: the first lap attaining the minimal lap time,
among laps that have one. -/
def pick_fastest (laps : List Lap) : Option Lap :=
  match laps.filter (fun l => l.lapTime.isSome) with
  | [] => none
  | l :: ls =>
      some (ls.foldl
        (fun best c =>
          if c.lapTime.getD 0 < best.lapTime.getD 0 then c else best) l)

/-- A `pace_data` entry: the driver's `(LapNumber, LapTime)` rows after
`dropna`, lap times in seconds. -/
structure PaceEntry where
  driver : String
  x : List ℚ
  y : List ℚ
  deriving DecidableEq

/-- A `telemetry_data` entry: distance/speed trace of the fastest lap plus
the truncated formatted lap time. -/
structure TelEntry where
  driver : String
  distance : List ℚ
  speed : List ℚ
  lap_time : String
  deriving DecidableEq

/-- The race-winner metadata block. -/
structure WinnerInfo where
  name : String
  team : String
  time : String
  deriving DecidableEq

/-- The dictionary returned by a successful `get_detailed_telemetry`. -/
structure Comparison where
  race_name : String
  pace_data : List PaceEntry
  telemetry_data : List TelEntry
  winner_info : WinnerInfo
  deriving DecidableEq

/-- Build one driver's `pace_data` entry. -/
def paceEntry (d : String) (laps : List Lap) : PaceEntry :=
  let rows := laps.filter (fun l => l.lapNumber.isSome && l.lapTime.isSome)
  { driver := d
    x := rows.map (fun l => l.lapNumber.getD 0)
    y := rows.map (fun l => l.lapTime.getD 0) }

/-- `extract_tel(lap, driver)`: `none` models the inner
`except (ValueError, IndexError, KeyError)` branch when `get_telemetry`
fails; on success the `(Distance, Speed)` lists and the
`str(lap['LapTime']).split(' days ')[-1][0:10]` string. -/
def extract_tel (lap : Option Lap) (d : String) : Option TelEntry :=
  match lap with
  | none => none
  | some l =>
      match l.telemetry with
      | none => none
      | some tel =>
          some { driver := d
                 distance := tel.map (fun p => p.1)
                 speed := tel.map (fun p => p.2)
                 lap_time := ⟨((stripDays l.lapTimeStr).data).take 10⟩ }

/-- The winner block built from one results row: its fields when all are
present (the `' days '` prefix stripped from the time), else the `N/A`
placeholders (a malformed field raises, caught by the inner `except`). -/
def winnerRowInfo (row : ResultRow) : WinnerInfo :=
  match row.abbreviation, row.teamName, row.time with
  | some a, some t, some ti => { name := a, team := t, time := stripDays ti }
  | _, _, _ => { name := "N/A", team := "N/A", time := "N/A" }

/-- The winner-metadata block: first results row with `Position == 1.0`,
with `N/A` placeholders when no such row exists. -/
def winner_info_of (results : List ResultRow) : WinnerInfo :=
  match results.filter (fun r => r.position == some 1) with
  | [] => { name := "N/A", team := "N/A", time := "N/A" }
  | row :: _ => winnerRowInfo row

/-- `get_detailed_telemetry(year, race, d1, d2)`. -/
def get_detailed_telemetry (load : ℤ → String → String → Option Session)
    (year : ℤ) (race d1 d2 : String) : Option Comparison × Option String :=
  match load year race "R" with
  | none => (none, some ("Session data not found for " ++ race ++ " " ++ toString year))
  | some session =>
      let laps_d1 := pick_quicklaps (pick_driver d1 session.laps)
      let laps_d2 := pick_quicklaps (pick_driver d2 session.laps)
      if laps_d1.isEmpty || laps_d2.isEmpty then
        (none, some "Driver data unavailable.")
      else
        let t1 := extract_tel (pick_fastest laps_d1) d1
        let t2 := extract_tel (pick_fastest laps_d2) d2
        (some { race_name := session.eventName
                pace_data := [paceEntry d1 laps_d1, paceEntry d2 laps_d2]
                telemetry_data := t1.toList ++ t2.toList
                winner_info := winner_info_of session.results }, none)

/-- The compound delta applied per lap, as a standalone value. -/
def compoundDelta (compound : String) : ℚ :=
  if compound = "SOFT" then -(1/2) else if compound = "HARD" then 1/2 else 0

/-- A well-behaved fixture session: two representative laps
(lap 1 in 100 s, lap 2 in 101 s), so the fitted line is `t = n + 99`. -/
def testSession : Session :=
  { laps := [{ lapNumber := some 1, lapTime := some 100
               lapTimeStr := "0 days 00:01:40", driver := "VER"
               isQuick := true, telemetry := some [(0, 280), (100, 300)] },
             { lapNumber := some 2, lapTime := some 101
               lapTimeStr := "0 days 00:01:41", driver := "VER"
               isQuick := true, telemetry := some [(0, 281), (100, 301)] }]
    results := [{ position := some 1, abbreviation := some "VER"
                  teamName := some "Red Bull Racing"
                  time := some "0 days 01:32:07.986000" }]
    eventName := "Monaco Grand Prix" }

/-- A loader that always resolves to `testSession`. -/
def testLoad : ℤ → String → String → Option Session :=
  fun _ _ _ => some testSession

/-- A loader that never resolves a session. -/
def failLoad : ℤ → String → String → Option Session :=
  fun _ _ _ => none

/-- A pathological fixture session: lap 1 in 100 s, lap 2 in 1 s, so the
fitted line is `t = 199 - 99 n` and the extrapolated 57-lap total is
negative. -/
def badSession : Session :=
  { laps := [{ lapNumber := some 1, lapTime := some 100
               lapTimeStr := "0 days 00:01:40", driver := "VER"
               isQuick := true, telemetry := none },
             { lapNumber := some 2, lapTime := some 1
               lapTimeStr := "0 days 00:00:01", driver := "VER"
               isQuick := true, telemetry := none }]
    results := []
    eventName := "Monaco Grand Prix" }

/-- A loader that always resolves to `badSession`. -/
def badLoad : ℤ → String → String → Option Session :=
  fun _ _ _ => some badSession

/-- A fixture session whose only lap is non-representative, so the filtered
lap set is empty. -/
def noQuickSession : Session :=
  { laps := [{ lapNumber := some 1, lapTime := some 100
               lapTimeStr := "0 days 00:01:40", driver := "VER"
               isQuick := false, telemetry := none }]
    results := []
    eventName := "Monaco Grand Prix" }

/-- A loader that always resolves to `noQuickSession`. -/
def noQuickLoad : ℤ → String → String → Option Session :=
  fun _ _ _ => some noQuickSession

/-- A two-driver fixture session: VER's fastest lap has telemetry, HAM's
telemetry extraction fails; the results carry a complete winner row. -/
def cmpSession : Session :=
  { laps := [{ lapNumber := some 1, lapTime := some 90
               lapTimeStr := "0 days 00:01:30.500000", driver := "VER"
               isQuick := true, telemetry := some [(0, 280), (50, 320)] },
             { lapNumber := some 1, lapTime := some 92
               lapTimeStr := "0 days 00:01:32", driver := "HAM"
               isQuick := true, telemetry := none }]
    results := [{ position := some 1, abbreviation := some "VER"
                  teamName := some "Red Bull Racing"
                  time := some "0 days 01:30:00.123000" }]
    eventName := "Monaco Grand Prix" }

/-- A loader that always resolves to `cmpSession`. -/
def cmpLoad : ℤ → String → String → Option Session :=
  fun _ _ _ => some cmpSession

/-- A fixture session in which only VER has laps, so HAM's representative
lap set is empty. -/
def cmpMissingSession : Session :=
  { laps := [{ lapNumber := some 1, lapTime := some 90
               lapTimeStr := "0 days 00:01:30.500000", driver := "VER"
               isQuick := true, telemetry := some [(0, 280), (50, 320)] }]
    results := []
    eventName := "Monaco Grand Prix" }

/-- A loader that always resolves to `cmpMissingSession`. -/
def cmpMissingLoad : ℤ → String → String → Option Session :=
  fun _ _ _ => some cmpMissingSession

theorem list_sum_map_range (f : ℕ → ℚ) (n : ℕ) :
    ((List.range n).map f).sum = Finset.sum (Finset.range n) f := by
  induction n with
  | zero => simp
  | succ n ih =>
      rw [List.range_succ, List.map_append, List.sum_append,
        Finset.sum_range_succ, ih]
      simp

theorem le_roundHalfEven (q : ℚ) : q - 1/2 ≤ (roundHalfEven q : ℚ) := by
  have h1 : (⌊q⌋ : ℚ) ≤ q := Int.floor_le q
  have h2 : q < ⌊q⌋ + 1 := Int.lt_floor_add_one q
  simp only [roundHalfEven]
  split_ifs <;> push_cast <;> linarith

theorem roundHalfEven_le (q : ℚ) : (roundHalfEven q : ℚ) ≤ q + 1/2 := by
  have h1 : (⌊q⌋ : ℚ) ≤ q := Int.floor_le q
  have h2 : q < ⌊q⌋ + 1 := Int.lt_floor_add_one q
  simp only [roundHalfEven]
  split_ifs <;> push_cast <;> linarith

theorem pyRound_ge (n : ℕ) (q : ℚ) : q - 1/(2 * 10 ^ n) ≤ pyRound n q := by
  have h10 : (0:ℚ) < 10 ^ n := by positivity
  have hkey : (1/(2 * (10:ℚ) ^ n)) * 10 ^ n = 1/2 := by field_simp; ring
  have h := le_roundHalfEven (q * 10 ^ n)
  rw [pyRound, le_div_iff₀ h10, sub_mul, hkey]
  exact h

theorem pyRound_le (n : ℕ) (q : ℚ) : pyRound n q ≤ q + 1/(2 * 10 ^ n) := by
  have h10 : (0:ℚ) < 10 ^ n := by positivity
  have hkey : (1/(2 * (10:ℚ) ^ n)) * 10 ^ n = 1/2 := by field_simp; ring
  have h := roundHalfEven_le (q * 10 ^ n)
  rw [pyRound, div_le_iff₀ h10, add_mul, hkey]
  exact h

theorem adjustLap_eq (compound : String) (sl : List ℕ) (k : ℕ) (t : ℚ) :
    adjustLap compound sl k t =
      t + compoundDelta compound + (if k ∈ sl then (22:ℚ) else 0) := by
  simp only [adjustLap, compoundDelta]
  split_ifs <;> ring

theorem raceTimeTotal_eq_sum (s b : ℚ) (compound : String) (sl : List ℕ) :
    raceTimeTotal s b compound sl =
      Finset.sum (Finset.range 57)
        (fun i => s * ((i : ℚ) + 1) + b + compoundDelta compound
          + (if i + 1 ∈ sl then (22:ℚ) else 0)) := by
  rw [raceTimeTotal, list_sum_map_range]
  exact Finset.sum_congr rfl (fun i _ => adjustLap_eq compound sl (i + 1) _)

theorem raceTimeTotal_eq_sum_Icc (s b : ℚ) (compound : String) (sl : List ℕ) :
    raceTimeTotal s b compound sl =
      Finset.sum (Finset.Icc (1:ℕ) 57)
        (fun k => s * (k : ℚ) + b + compoundDelta compound
          + (if k ∈ sl then (22:ℚ) else 0)) := by
  rw [raceTimeTotal_eq_sum, ← Nat.Ico_succ_right, Finset.sum_Ico_eq_sum_range]
  norm_num
  exact Finset.sum_congr rfl (fun i _ => by rw [Nat.add_comm 1 i]; ring_nf)

theorem sum_range57_cast : Finset.sum (Finset.range 57) (fun i => (i : ℚ)) = 1596 := by
  have h : Finset.sum (Finset.range 57) (fun i => i) = 1596 := by decide
  calc Finset.sum (Finset.range 57) (fun i => (i : ℚ))
      = ((Finset.sum (Finset.range 57) fun i => i : ℕ) : ℚ) := by
        rw [Nat.cast_sum]
    _ = 1596 := by rw [h]; norm_num

theorem raceTimeTotal_closed (s b : ℚ) (compound : String) (sl : List ℕ) :
    raceTimeTotal s b compound sl =
      1653 * s + 57 * b + 57 * compoundDelta compound
        + 22 * (((Finset.range 57).filter (fun i => i + 1 ∈ sl)).card : ℚ) := by
  rw [raceTimeTotal_eq_sum]
  rw [Finset.sum_add_distrib, Finset.sum_add_distrib, Finset.sum_add_distrib]
  have hite : Finset.sum (Finset.range 57) (fun i => if i + 1 ∈ sl then (22:ℚ) else 0)
      = (((Finset.range 57).filter (fun i => i + 1 ∈ sl)).card : ℚ) * 22 := by
    rw [← Finset.sum_filter, Finset.sum_const, nsmul_eq_mul]
  have hlin : Finset.sum (Finset.range 57) (fun i => s * ((i : ℚ) + 1)) = s * 1653 := by
    rw [← Finset.mul_sum, Finset.sum_add_distrib, sum_range57_cast,
      Finset.sum_const, Finset.card_range]
    norm_num
  rw [hite, hlin, Finset.sum_const, Finset.sum_const, Finset.card_range]
  ring

theorem predict_strategy_noSession (load : ℤ → String → String → Option Session)
    (track compound : String) (stops : PyVal)
    (h : load 2023 track "R" = none) :
    predict_strategy load track compound stops =
      (none, some "Historical data unavailable for this track.") := by
  unfold predict_strategy
  rw [h]

theorem predict_strategy_someSession (load : ℤ → String → String → Option Session)
    (track compound : String) (stops : PyVal) (session : Session)
    (h : load 2023 track "R" = some session) :
    predict_strategy load track compound stops =
      (if (representativeLaps session).isEmpty then (none, some fitEmptyMsg)
       else
        match pyInt stops with
        | .error e => (none, some e)
        | .ok n => (some (strategyResult session compound n), none)) := by
  unfold predict_strategy
  rw [h]

theorem predict_strategy_ok (load : ℤ → String → String → Option Session)
    (track compound : String) (stops : PyVal) (session : Session) (n : ℤ)
    (h : load 2023 track "R" = some session)
    (hne : (representativeLaps session).isEmpty = false)
    (hn : pyInt stops = .ok n) :
    predict_strategy load track compound stops =
      (some (strategyResult session compound n), none) := by
  rw [predict_strategy_someSession load track compound stops session h, hne, hn]
  simp

theorem get_detailed_telemetry_someSession
    (load : ℤ → String → String → Option Session)
    (year : ℤ) (race d1 d2 : String) (session : Session)
    (h : load year race "R" = some session) :
    get_detailed_telemetry load year race d1 d2 =
      (if (pick_quicklaps (pick_driver d1 session.laps)).isEmpty
          || (pick_quicklaps (pick_driver d2 session.laps)).isEmpty then
        (none, some "Driver data unavailable.")
       else
        (some { race_name := session.eventName
                pace_data := [paceEntry d1 (pick_quicklaps (pick_driver d1 session.laps)),
                              paceEntry d2 (pick_quicklaps (pick_driver d2 session.laps))]
                telemetry_data :=
                  (extract_tel (pick_fastest (pick_quicklaps (pick_driver d1 session.laps))) d1).toList
                    ++ (extract_tel (pick_fastest (pick_quicklaps (pick_driver d2 session.laps))) d2).toList
                winner_info := winner_info_of session.results }, none)) := by
  unfold get_detailed_telemetry
  rw [h]

theorem isEmpty_false_of_ne_nil {l : List Lap} (h : l ≠ []) : l.isEmpty = false := by
  cases l with
  | nil => exact absurd rfl h
  | cons a t => rfl

/-- C5 (counterexample): with an unresolvable session for circuit `Monaco`,
`predict_strategy` does return `(None, error)`, but the error message is the
fixed string `"Historical data unavailable for this track."`, which does not
contain the circuit name — so the message does not identify the circuit. -/
theorem estimate_unavailable_counterexample :
    predict_strategy failLoad "Monaco" "SOFT" (PyVal.int 1)
        = (none, some "Historical data unavailable for this track.")
    ∧ hasSubChars "Monaco".data
        "Historical data unavailable for this track.".data = false := by
  exact ⟨rfl, by decide⟩

/-- C5 (amended): whenever the Session Loader fails to resolve the race
session, `predict_strategy` returns no result together with the fixed,
non-empty error string `"Historical data unavailable for this track."`
(the message does not name the requested circuit). -/
theorem estimate_unavailable_fixed_message
    (load : ℤ → String → String → Option Session)
    (track compound : String) (stops : PyVal)
    (hload : load 2023 track "R" = none) :
    predict_strategy load track compound stops
        = (none, some "Historical data unavailable for this track.")
    ∧ "Historical data unavailable for this track." ≠ "" :=
  ⟨predict_strategy_noSession load track compound stops hload, by decide⟩

/-- C5 witness. -/
theorem estimate_unavailable_fixed_message_witness :
    failLoad 2023 "Monaco" "SOFT" = none
    ∧ (predict_strategy failLoad "Monaco" "SOFT" (PyVal.int 1)
        = (none, some "Historical data unavailable for this track.")
      ∧ "Historical data unavailable for this track." ≠ "") :=
  ⟨rfl, estimate_unavailable_fixed_message failLoad "Monaco" "SOFT" (PyVal.int 1) rfl⟩

/-- C6: when the session resolves but filtering leaves zero usable laps,
`predict_strategy` does not raise past its boundary: the `ValueError` from
fitting the empty design matrix is caught and returned as a descriptive,
non-empty error string together with no result. -/
theorem estimate_empty_laps_clean
    (load : ℤ → String → String → Option Session)
    (track compound : String) (stops : PyVal) (session : Session)
    (hload : load 2023 track "R" = some session)
    (hempty : representativeLaps session = []) :
    predict_strategy load track compound stops = (none, some fitEmptyMsg)
    ∧ fitEmptyMsg ≠ "" := by
  have h' : (representativeLaps session).isEmpty = true := by rw [hempty]; rfl
  refine ⟨?_, by decide⟩
  rw [predict_strategy_someSession load track compound stops session hload, h']
  simp

/-- C6 witness. -/
theorem estimate_empty_laps_clean_witness :
    noQuickLoad 2023 "Monaco" "R" = some noQuickSession
    ∧ representativeLaps noQuickSession = []
    ∧ (predict_strategy noQuickLoad "Monaco" "SOFT" (PyVal.int 1)
        = (none, some fitEmptyMsg)
      ∧ fitEmptyMsg ≠ "") :=
  ⟨rfl, by decide,
    estimate_empty_laps_clean noQuickLoad "Monaco" "SOFT" (PyVal.int 1)
      noQuickSession rfl (by decide)⟩

/-- C10: when `int(stops)` fails (non-numeric string), `predict_strategy`
returns no result and the `ValueError` message as an error string — the
regression and compound work before that point leave no partial result. -/
theorem estimate_bad_stops_clean
    (load : ℤ → String → String → Option Session)
    (track compound : String) (session : Session) (s : String)
    (hload : load 2023 track "R" = some session)
    (hne : representativeLaps session ≠ [])
    (hbad : parseIntStr s = none) :
    predict_strategy load track compound (PyVal.str s)
        = (none, some ("invalid literal for int() with base 10: " ++ s))
    ∧ ("invalid literal for int() with base 10: " ++ s) ≠ "" := by
  have hne' : (representativeLaps session).isEmpty = false :=
    isEmpty_false_of_ne_nil hne
  have herr : pyInt (PyVal.str s)
      = .error ("invalid literal for int() with base 10: " ++ s) := by
    simp only [pyInt, hbad]
  constructor
  · rw [predict_strategy_someSession load track compound (PyVal.str s) session hload,
      hne', herr]
    simp
  · intro h
    have h2 := congrArg String.length h
    rw [String.length_append] at h2
    have h3 : ("invalid literal for int() with base 10: " : String).length = 40 := rfl
    have h0 : ("" : String).length = 0 := rfl
    rw [h3, h0] at h2
    omega

/-- C10 witness. -/
theorem estimate_bad_stops_clean_witness :
    testLoad 2023 "Monaco" "R" = some testSession
    ∧ representativeLaps testSession ≠ []
    ∧ parseIntStr "abc" = none
    ∧ (predict_strategy testLoad "Monaco" "MEDIUM" (PyVal.str "abc")
        = (none, some ("invalid literal for int() with base 10: " ++ "abc"))
      ∧ ("invalid literal for int() with base 10: " ++ "abc") ≠ "") :=
  ⟨rfl, by decide, by decide,
    estimate_bad_stops_clean testLoad "Monaco" "MEDIUM" testSession "abc"
      rfl (by decide) (by decide)⟩

/-- C7: if either driver's representative lap set in a resolved session is
empty, `get_detailed_telemetry` returns no result and the error string
`"Driver data unavailable."` — no partial result for the other driver. -/
theorem compare_driver_missing
    (load : ℤ → String → String → Option Session)
    (year : ℤ) (race d1 d2 : String) (session : Session)
    (hload : load year race "R" = some session)
    (hmiss : (pick_quicklaps (pick_driver d1 session.laps)).isEmpty = true
      ∨ (pick_quicklaps (pick_driver d2 session.laps)).isEmpty = true) :
    get_detailed_telemetry load year race d1 d2
        = (none, some "Driver data unavailable.") := by
  rw [get_detailed_telemetry_someSession load year race d1 d2 session hload]
  rcases hmiss with h | h <;> rw [h] <;> simp

/-- C7 witness. -/
theorem compare_driver_missing_witness :
    cmpMissingLoad 2023 "Monaco" "R" = some cmpMissingSession
    ∧ (pick_quicklaps (pick_driver "HAM" cmpMissingSession.laps)).isEmpty = true
    ∧ get_detailed_telemetry cmpMissingLoad 2023 "Monaco" "VER" "HAM"
        = (none, some "Driver data unavailable.") :=
  ⟨rfl, by decide,
    compare_driver_missing cmpMissingLoad 2023 "Monaco" "VER" "HAM"
      cmpMissingSession rfl (Or.inr (by decide))⟩

/-- C2 (counterexample): with a resolvable session and `stopCount = 3`
(a stop count other than 1 or 2, hence an empty pit-lap list), the
recommendation is the empty string — the comma-join of the empty list —
not `"No Stops"` as the claim states. -/
theorem stop_recommendation_counterexample :
    ((predict_strategy testLoad "Monaco" "MEDIUM" (PyVal.int 3)).1).map
        (fun est => est.stop_recommendation) = some ""
    ∧ "" ≠ "No Stops" := by
  constructor
  · rw [predict_strategy_ok testLoad "Monaco" "MEDIUM" (PyVal.int 3) testSession 3
      rfl (by decide) rfl]
    rfl
  · decide

/-- C2 (amended): on a successful estimate the stop recommendation is
`"No Stops"` exactly when the coerced stop count is ≤ 0; `"Lap 25"` for
1 stop; `"Lap 18, Lap 38"` for 2 stops; and for any other positive stop
count it is the empty string (the comma-join of the empty pit-lap table),
not `"No Stops"`. -/
theorem stop_recommendation_cases
    (load : ℤ → String → String → Option Session)
    (track compound : String) (stops : PyVal) (session : Session) (n : ℤ)
    (hload : load 2023 track "R" = some session)
    (hne : representativeLaps session ≠ [])
    (hstops : pyInt stops = Except.ok n) :
    ((predict_strategy load track compound stops).1).map
        (fun est => est.stop_recommendation)
      = some (if n ≤ 0 then "No Stops"
              else if n = 1 then "Lap 25"
              else if n = 2 then "Lap 18, Lap 38" else "") := by
  have hne' : (representativeLaps session).isEmpty = false :=
    isEmpty_false_of_ne_nil hne
  rw [predict_strategy_ok load track compound stops session n hload hne' hstops]
  refine congrArg some ?_
  show (strategyResult session compound n).stop_recommendation
      = if n ≤ 0 then "No Stops"
        else if n = 1 then "Lap 25"
        else if n = 2 then "Lap 18, Lap 38" else ""
  have hsr : (strategyResult session compound n).stop_recommendation
      = if 0 < n then
          String.intercalate ", " ((stop_laps n).map (fun x => "Lap " ++ toString x))
        else "No Stops" := rfl
  rw [hsr, stop_laps]
  by_cases h0 : 0 < n
  · rw [if_pos h0, if_neg (by omega : ¬ n ≤ 0)]
    by_cases h1 : n = 1
    · rw [if_pos h1, if_pos h1]
      rfl
    · rw [if_neg h1, if_neg h1]
      by_cases h2 : n = 2
      · rw [if_pos h2, if_pos h2]
        rfl
      · rw [if_neg h2, if_neg h2]
        rfl
  · rw [if_neg h0, if_pos (by omega : n ≤ 0)]

/-- C2 witness (at the gap input `stopCount = 3`). -/
theorem stop_recommendation_cases_witness :
    testLoad 2023 "Monaco" "R" = some testSession
    ∧ representativeLaps testSession ≠ []
    ∧ pyInt (PyVal.int 3) = Except.ok 3
    ∧ ((predict_strategy testLoad "Monaco" "MEDIUM" (PyVal.int 3)).1).map
        (fun est => est.stop_recommendation)
      = some (if (3:ℤ) ≤ 0 then "No Stops"
              else if (3:ℤ) = 1 then "Lap 25"
              else if (3:ℤ) = 2 then "Lap 18, Lap 38" else "") :=
  ⟨rfl, by decide, rfl,
    stop_recommendation_cases testLoad "Monaco" "MEDIUM" (PyVal.int 3)
      testSession 3 rfl (by decide) rfl⟩

/-- C1: on a successful estimate (resolvable session, non-empty filtered lap
set, coercible stop count), `total_time_min` is the sum over lap numbers
1..57 of the fitted pace at that lap, minus 0.5 s for SOFT / plus 0.5 s for
HARD, plus 22.0 s on laps in the pit-stop table for the stop count, divided
by 60 and rounded to 2 decimals; `degradation` is the fitted slope rounded
to 4 decimals. -/
theorem estimate_total_time_formula
    (load : ℤ → String → String → Option Session)
    (track compound : String) (stops : PyVal) (session : Session) (n : ℤ)
    (est : Strategy)
    (hload : load 2023 track "R" = some session)
    (hne : representativeLaps session ≠ [])
    (hstops : pyInt stops = Except.ok n)
    (hok : (predict_strategy load track compound stops).1 = some est) :
    est.total_time_min =
      pyRound 2 ((Finset.sum (Finset.Icc (1:ℕ) 57)
        (fun k => (fitLinear (lapPoints (representativeLaps session))).1 * (k : ℚ)
          + (fitLinear (lapPoints (representativeLaps session))).2
          + (if compound = "SOFT" then -(1/2)
             else if compound = "HARD" then 1/2 else 0)
          + (if k ∈ stop_laps n then (22:ℚ) else 0))) / 60)
    ∧ est.degradation
        = pyRound 4 (fitLinear (lapPoints (representativeLaps session))).1 := by
  have hne' : (representativeLaps session).isEmpty = false :=
    isEmpty_false_of_ne_nil hne
  rw [predict_strategy_ok load track compound stops session n hload hne' hstops] at hok
  obtain rfl : strategyResult session compound n = est := Option.some.inj hok
  constructor
  · have h1 : (strategyResult session compound n).total_time_min
        = pyRound 2 (raceTimeTotal
            (fitLinear (lapPoints (representativeLaps session))).1
            (fitLinear (lapPoints (representativeLaps session))).2
            compound (stop_laps n) / 60) := rfl
    rw [h1, raceTimeTotal_eq_sum_Icc]
    rfl
  · rfl

/-- C1 witness. -/
theorem estimate_total_time_formula_witness :
    testLoad 2023 "Monaco" "R" = some testSession
    ∧ representativeLaps testSession ≠ []
    ∧ pyInt (PyVal.int 2) = Except.ok 2
    ∧ (predict_strategy testLoad "Monaco" "MEDIUM" (PyVal.int 2)).1
        = some (strategyResult testSession "MEDIUM" 2)
    ∧ ((strategyResult testSession "MEDIUM" 2).total_time_min =
        pyRound 2 ((Finset.sum (Finset.Icc (1:ℕ) 57)
          (fun k => (fitLinear (lapPoints (representativeLaps testSession))).1 * (k : ℚ)
            + (fitLinear (lapPoints (representativeLaps testSession))).2
            + (if "MEDIUM" = "SOFT" then -(1/2)
               else if "MEDIUM" = "HARD" then 1/2 else 0)
            + (if k ∈ stop_laps 2 then (22:ℚ) else 0))) / 60)
      ∧ (strategyResult testSession "MEDIUM" 2).degradation
          = pyRound 4 (fitLinear (lapPoints (representativeLaps testSession))).1) := by
  have hok : (predict_strategy testLoad "Monaco" "MEDIUM" (PyVal.int 2)).1
      = some (strategyResult testSession "MEDIUM" 2) := by
    rw [predict_strategy_ok testLoad "Monaco" "MEDIUM" (PyVal.int 2) testSession 2
      rfl (by decide) rfl]
  exact ⟨rfl, by decide, rfl, hok,
    estimate_total_time_formula testLoad "Monaco" "MEDIUM" (PyVal.int 2)
      testSession 2 (strategyResult testSession "MEDIUM" 2) rfl (by decide) rfl hok⟩

theorem strategy_total_eq (session : Session) (compound : String) (n : ℤ) :
    (strategyResult session compound n).total_time_min
      = pyRound 2 ((1653 * (fitLinear (lapPoints (representativeLaps session))).1
          + 57 * (fitLinear (lapPoints (representativeLaps session))).2
          + 57 * compoundDelta compound
          + 22 * (((Finset.range 57).filter
              (fun i => i + 1 ∈ stop_laps n)).card : ℚ)) / 60) := by
  have h1 : (strategyResult session compound n).total_time_min
      = pyRound 2 (raceTimeTotal
          (fitLinear (lapPoints (representativeLaps session))).1
          (fitLinear (lapPoints (representativeLaps session))).2
          compound (stop_laps n) / 60) := rfl
  rw [h1, raceTimeTotal_closed]

/-- C3: for a fixed circuit and stop count over the same session data, when
all three estimates succeed, total time is strictly increasing from SOFT to
MEDIUM to HARD. -/
theorem compound_monotonic
    (load : ℤ → String → String → Option Session)
    (track : String) (stops : PyVal) (eS eM eH : Strategy)
    (hS : (predict_strategy load track "SOFT" stops).1 = some eS)
    (hM : (predict_strategy load track "MEDIUM" stops).1 = some eM)
    (hH : (predict_strategy load track "HARD" stops).1 = some eH) :
    eS.total_time_min < eM.total_time_min
    ∧ eM.total_time_min < eH.total_time_min := by
  cases hsess : load 2023 track "R" with
  | none =>
      rw [predict_strategy_noSession load track "MEDIUM" stops hsess] at hM
      exact absurd hM (by simp)
  | some session =>
      cases hemp : (representativeLaps session).isEmpty with
      | true =>
          rw [predict_strategy_someSession load track "MEDIUM" stops session hsess,
            hemp] at hM
          exact absurd hM (by simp)
      | false =>
          cases hint : pyInt stops with
          | error e =>
              rw [predict_strategy_someSession load track "MEDIUM" stops session hsess,
                hemp, hint] at hM
              exact absurd hM (by simp)
          | ok n =>
              rw [predict_strategy_ok load track "SOFT" stops session n hsess hemp hint] at hS
              rw [predict_strategy_ok load track "MEDIUM" stops session n hsess hemp hint] at hM
              rw [predict_strategy_ok load track "HARD" stops session n hsess hemp hint] at hH
              obtain rfl : strategyResult session "SOFT" n = eS := Option.some.inj hS
              obtain rfl : strategyResult session "MEDIUM" n = eM := Option.some.inj hM
              obtain rfl : strategyResult session "HARD" n = eH := Option.some.inj hH
              rw [strategy_total_eq, strategy_total_eq, strategy_total_eq]
              have hδS : compoundDelta "SOFT" = -(1/2) := rfl
              have hδM : compoundDelta "MEDIUM" = 0 := rfl
              have hδH : compoundDelta "HARD" = 1/2 := rfl
              rw [hδS, hδM, hδH]
              set A := 1653 * (fitLinear (lapPoints (representativeLaps session))).1
                + 57 * (fitLinear (lapPoints (representativeLaps session))).2
                + 22 * (((Finset.range 57).filter
                    (fun i => i + 1 ∈ stop_laps n)).card : ℚ) with hA
              have hS' : 1653 * (fitLinear (lapPoints (representativeLaps session))).1
                  + 57 * (fitLinear (lapPoints (representativeLaps session))).2
                  + 57 * -(1/2)
                  + 22 * (((Finset.range 57).filter
                      (fun i => i + 1 ∈ stop_laps n)).card : ℚ) = A - 57/2 := by
                rw [hA]; ring
              have hM' : 1653 * (fitLinear (lapPoints (representativeLaps session))).1
                  + 57 * (fitLinear (lapPoints (representativeLaps session))).2
                  + 57 * 0
                  + 22 * (((Finset.range 57).filter
                      (fun i => i + 1 ∈ stop_laps n)).card : ℚ) = A := by
                rw [hA]; ring
              have hH' : 1653 * (fitLinear (lapPoints (representativeLaps session))).1
                  + 57 * (fitLinear (lapPoints (representativeLaps session))).2
                  + 57 * (1/2)
                  + 22 * (((Finset.range 57).filter
                      (fun i => i + 1 ∈ stop_laps n)).card : ℚ) = A + 57/2 := by
                rw [hA]; ring
              rw [hS', hM', hH']
              have u1 := pyRound_le 2 ((A - 57/2) / 60)
              have u2 := pyRound_ge 2 (A / 60)
              have u3 := pyRound_le 2 (A / 60)
              have u4 := pyRound_ge 2 ((A + 57/2) / 60)
              norm_num at u1 u2 u3 u4
              constructor <;> linarith

/-- C3 witness. -/
theorem compound_monotonic_witness :
    (predict_strategy testLoad "Monaco" "SOFT" (PyVal.int 1)).1
        = some (strategyResult testSession "SOFT" 1)
    ∧ (predict_strategy testLoad "Monaco" "MEDIUM" (PyVal.int 1)).1
        = some (strategyResult testSession "MEDIUM" 1)
    ∧ (predict_strategy testLoad "Monaco" "HARD" (PyVal.int 1)).1
        = some (strategyResult testSession "HARD" 1)
    ∧ ((strategyResult testSession "SOFT" 1).total_time_min
        < (strategyResult testSession "MEDIUM" 1).total_time_min
      ∧ (strategyResult testSession "MEDIUM" 1).total_time_min
        < (strategyResult testSession "HARD" 1).total_time_min) := by
  have hS : (predict_strategy testLoad "Monaco" "SOFT" (PyVal.int 1)).1
      = some (strategyResult testSession "SOFT" 1) := by
    rw [predict_strategy_ok testLoad "Monaco" "SOFT" (PyVal.int 1) testSession 1
      rfl (by decide) rfl]
  have hM : (predict_strategy testLoad "Monaco" "MEDIUM" (PyVal.int 1)).1
      = some (strategyResult testSession "MEDIUM" 1) := by
    rw [predict_strategy_ok testLoad "Monaco" "MEDIUM" (PyVal.int 1) testSession 1
      rfl (by decide) rfl]
  have hH : (predict_strategy testLoad "Monaco" "HARD" (PyVal.int 1)).1
      = some (strategyResult testSession "HARD" 1) := by
    rw [predict_strategy_ok testLoad "Monaco" "HARD" (PyVal.int 1) testSession 1
      rfl (by decide) rfl]
  exact ⟨hS, hM, hH,
    compound_monotonic testLoad "Monaco" (PyVal.int 1)
      (strategyResult testSession "SOFT" 1)
      (strategyResult testSession "MEDIUM" 1)
      (strategyResult testSession "HARD" 1) hS hM hH⟩

/-- C4 (counterexample): a resolvable session with two representative laps
(100 s then 1 s) gives a steeply negative fitted slope, and the 57-lap
extrapolated total is negative: `total_time_min = -2538.4 < 0`, refuting
the unconditional positivity claim. -/
theorem estimate_positive_counterexample :
    2 ≤ (representativeLaps badSession).length
    ∧ ((predict_strategy badLoad "Monaco" "MEDIUM" (PyVal.int 0)).1).map
        (fun est => est.total_time_min) = some (-(12692/5 : ℚ))
    ∧ ¬ (0 < -(12692/5 : ℚ)) := by
  refine ⟨by decide, ?_, by norm_num⟩
  rw [predict_strategy_ok badLoad "Monaco" "MEDIUM" (PyVal.int 0) badSession 0
    rfl (by decide) rfl]
  show some ((strategyResult badSession "MEDIUM" 0).total_time_min)
      = some (-(12692/5 : ℚ))
  refine congrArg some ?_
  have h := strategy_total_eq badSession "MEDIUM" 0
  have hfit : fitLinear (lapPoints (representativeLaps badSession)) = (-99, 199) := by
    norm_num [fitLinear, lapPoints, representativeLaps, badSession]
  have hcard : (((Finset.range 57).filter
      (fun i => i + 1 ∈ stop_laps 0)).card) = 0 := by decide
  have hδ : compoundDelta "MEDIUM" = 0 := rfl
  rw [hfit, hcard, hδ] at h
  rw [h]
  norm_num [pyRound, roundHalfEven]

/-- C4 (amended): with a resolvable session, at least 2 representative laps
and a valid stop count, `predict_strategy` always returns a non-none
result; and `total_time_min > 0` holds under the additional hypothesis that
the fitted line predicts at least 1 s of pace at every lap 1..57 (without
it, pathological lap data can drive the extrapolated total negative). -/
theorem estimate_success_and_positive
    (load : ℤ → String → String → Option Session)
    (track compound : String) (stops : PyVal) (session : Session) (n : ℤ)
    (hload : load 2023 track "R" = some session)
    (hlen : 2 ≤ (representativeLaps session).length)
    (hstops : pyInt stops = Except.ok n)
    (_hn : 0 ≤ n)
    (hpace : ∀ k : ℕ, k ∈ Finset.Icc (1:ℕ) 57 →
      (1:ℚ) ≤ (fitLinear (lapPoints (representativeLaps session))).1 * (k : ℚ)
        + (fitLinear (lapPoints (representativeLaps session))).2) :
    (predict_strategy load track compound stops).1
        = some (strategyResult session compound n)
    ∧ 0 < (strategyResult session compound n).total_time_min := by
  have hne : representativeLaps session ≠ [] := by
    intro h
    rw [h] at hlen
    simp at hlen
  have hne' : (representativeLaps session).isEmpty = false :=
    isEmpty_false_of_ne_nil hne
  refine ⟨by rw [predict_strategy_ok load track compound stops session n hload hne' hstops], ?_⟩
  have h1 : (strategyResult session compound n).total_time_min
      = pyRound 2 (raceTimeTotal
          (fitLinear (lapPoints (representativeLaps session))).1
          (fitLinear (lapPoints (representativeLaps session))).2
          compound (stop_laps n) / 60) := rfl
  rw [h1, raceTimeTotal_eq_sum_Icc]
  have hterm : ∀ k ∈ Finset.Icc (1:ℕ) 57,
      (1/2 : ℚ) ≤ (fitLinear (lapPoints (representativeLaps session))).1 * (k : ℚ)
        + (fitLinear (lapPoints (representativeLaps session))).2
        + compoundDelta compound
        + (if k ∈ stop_laps n then (22:ℚ) else 0) := by
    intro k hk
    have hp := hpace k hk
    have hδ : -(1/2 : ℚ) ≤ compoundDelta compound := by
      unfold compoundDelta
      split_ifs <;> norm_num
    have hpit : (0:ℚ) ≤ (if k ∈ stop_laps n then (22:ℚ) else 0) := by
      split_ifs <;> norm_num
    linarith
  have hsum := Finset.sum_le_sum hterm
  have hconst : Finset.sum (Finset.Icc (1:ℕ) 57) (fun _ => (1/2:ℚ)) = 57/2 := by
    rw [Finset.sum_const, Nat.card_Icc]
    norm_num
  rw [hconst] at hsum
  have hr := pyRound_ge 2 ((Finset.sum (Finset.Icc (1:ℕ) 57)
      (fun k => (fitLinear (lapPoints (representativeLaps session))).1 * (k : ℚ)
        + (fitLinear (lapPoints (representativeLaps session))).2
        + compoundDelta compound
        + (if k ∈ stop_laps n then (22:ℚ) else 0))) / 60)
  norm_num at hr
  linarith

/-- C4 witness. -/
theorem estimate_success_and_positive_witness :
    (predict_strategy testLoad "Monaco" "SOFT" (PyVal.int 1)).1
        = some (strategyResult testSession "SOFT" 1)
    ∧ 0 < (strategyResult testSession "SOFT" 1).total_time_min := by
  have hfit : fitLinear (lapPoints (representativeLaps testSession)) = (1, 99) := by
    norm_num [fitLinear, lapPoints, representativeLaps, testSession]
  refine estimate_success_and_positive testLoad "Monaco" "SOFT" (PyVal.int 1)
    testSession 1 rfl (by decide) rfl (by norm_num) ?_
  intro k hk
  rw [hfit]
  have hc : (0:ℚ) ≤ (k : ℚ) := Nat.cast_nonneg k
  norm_num
  linarith

/-- C8: when both drivers have representative laps but fastest-lap telemetry
extraction fails for exactly one of them, `compare` still returns a
non-none result whose speed-trace list has exactly one entry, while the
pace data still has entries for both drivers in order. -/
theorem compare_partial_telemetry
    (load : ℤ → String → String → Option Session)
    (year : ℤ) (race d1 d2 : String) (session : Session)
    (hload : load year race "R" = some session)
    (h1 : (pick_quicklaps (pick_driver d1 session.laps)).isEmpty = false)
    (h2 : (pick_quicklaps (pick_driver d2 session.laps)).isEmpty = false)
    (hexc : (extract_tel (pick_fastest (pick_quicklaps (pick_driver d1 session.laps))) d1 = none
        ∧ (extract_tel (pick_fastest (pick_quicklaps (pick_driver d2 session.laps))) d2).isSome = true)
      ∨ ((extract_tel (pick_fastest (pick_quicklaps (pick_driver d1 session.laps))) d1).isSome = true
        ∧ extract_tel (pick_fastest (pick_quicklaps (pick_driver d2 session.laps))) d2 = none)) :
    ((get_detailed_telemetry load year race d1 d2).1).map
        (fun c => (c.telemetry_data.length, c.pace_data.map (fun p => p.driver)))
      = some (1, [d1, d2]) := by
  rw [get_detailed_telemetry_someSession load year race d1 d2 session hload, h1, h2]
  rcases hexc with ⟨ha, hb⟩ | ⟨ha, hb⟩
  · obtain ⟨t, ht⟩ := Option.isSome_iff_exists.mp hb
    rw [ha, ht]
    simp [paceEntry]
  · obtain ⟨t, ht⟩ := Option.isSome_iff_exists.mp ha
    rw [hb, ht]
    simp [paceEntry]

/-- C8 witness. -/
theorem compare_partial_telemetry_witness :
    (pick_quicklaps (pick_driver "VER" cmpSession.laps)).isEmpty = false
    ∧ (pick_quicklaps (pick_driver "HAM" cmpSession.laps)).isEmpty = false
    ∧ extract_tel (pick_fastest (pick_quicklaps (pick_driver "HAM" cmpSession.laps))) "HAM" = none
    ∧ (extract_tel (pick_fastest (pick_quicklaps (pick_driver "VER" cmpSession.laps))) "VER").isSome = true
    ∧ ((get_detailed_telemetry cmpLoad 2023 "Monaco" "VER" "HAM").1).map
        (fun c => (c.telemetry_data.length, c.pace_data.map (fun p => p.driver)))
      = some (1, ["VER", "HAM"]) :=
  ⟨by decide, by decide, by decide, by decide,
    compare_partial_telemetry cmpLoad 2023 "Monaco" "VER" "HAM" cmpSession
      rfl (by decide) (by decide) (Or.inr ⟨by decide, by decide⟩)⟩

theorem winner_info_of_cons (results : List ResultRow) (row : ResultRow)
    (rest : List ResultRow)
    (h : results.filter (fun r => r.position == some 1) = row :: rest) :
    winner_info_of results = winnerRowInfo row := by
  unfold winner_info_of
  rw [h]

/-- C9: on a successful compare, the winner block is computed from the
results rows with finishing position 1: the request succeeds with
`winner_info_of session.results`; that block is the `N/A` placeholder
triple when no position-1 row exists, is built from the first position-1
row's fields when they are all present (with the `' days '` prefix stripped
from the time), and falls back to the placeholders when any field of that
row is malformed — the request as a whole succeeding in every case. -/
theorem compare_winner_info
    (load : ℤ → String → String → Option Session)
    (year : ℤ) (race d1 d2 : String) (session : Session)
    (row : ResultRow) (rest : List ResultRow) (a t ti : String)
    (hload : load year race "R" = some session)
    (h1 : (pick_quicklaps (pick_driver d1 session.laps)).isEmpty = false)
    (h2 : (pick_quicklaps (pick_driver d2 session.laps)).isEmpty = false) :
    ((get_detailed_telemetry load year race d1 d2).1).map
        (fun c => c.winner_info) = some (winner_info_of session.results)
    ∧ (session.results.filter (fun r => r.position == some 1) = [] →
        winner_info_of session.results
          = { name := "N/A", team := "N/A", time := "N/A" })
    ∧ (session.results.filter (fun r => r.position == some 1) = row :: rest →
        row.abbreviation = some a → row.teamName = some t → row.time = some ti →
        winner_info_of session.results
          = { name := a, team := t, time := stripDays ti })
    ∧ (session.results.filter (fun r => r.position == some 1) = row :: rest →
        (row.abbreviation = none ∨ row.teamName = none ∨ row.time = none) →
        winner_info_of session.results
          = { name := "N/A", team := "N/A", time := "N/A" }) := by
  refine ⟨?_, ?_, ?_, ?_⟩
  · rw [get_detailed_telemetry_someSession load year race d1 d2 session hload, h1, h2]
    simp
  · intro h
    unfold winner_info_of
    rw [h]
  · intro h ha ht hti
    rw [winner_info_of_cons session.results row rest h]
    unfold winnerRowInfo
    rw [ha, ht, hti]
  · intro h hmal
    rw [winner_info_of_cons session.results row rest h]
    unfold winnerRowInfo
    rcases hmal with h' | h' | h'
    · rw [h']
    · cases hA : row.abbreviation with
      | none => rfl
      | some a2 => rw [h']
    · cases hA : row.abbreviation with
      | none => rfl
      | some a2 =>
          cases hT : row.teamName with
          | none => rfl
          | some t2 => rw [h']

/-- C9 witness. -/
theorem compare_winner_info_witness :
    ((get_detailed_telemetry cmpLoad 2023 "Monaco" "VER" "HAM").1).map
        (fun c => c.winner_info) = some (winner_info_of cmpSession.results)
    ∧ (cmpSession.results.filter (fun r => r.position == some 1) = [] →
        winner_info_of cmpSession.results
          = { name := "N/A", team := "N/A", time := "N/A" })
    ∧ (cmpSession.results.filter (fun r => r.position == some 1)
          = { position := some 1, abbreviation := some "VER"
              teamName := some "Red Bull Racing"
              time := some "0 days 01:30:00.123000" } :: [] →
        ({ position := some 1, abbreviation := some "VER"
           teamName := some "Red Bull Racing"
           time := some "0 days 01:30:00.123000" } : ResultRow).abbreviation = some "VER" →
        ({ position := some 1, abbreviation := some "VER"
           teamName := some "Red Bull Racing"
           time := some "0 days 01:30:00.123000" } : ResultRow).teamName = some "Red Bull Racing" →
        ({ position := some 1, abbreviation := some "VER"
           teamName := some "Red Bull Racing"
           time := some "0 days 01:30:00.123000" } : ResultRow).time = some "0 days 01:30:00.123000" →
        winner_info_of cmpSession.results
          = { name := "VER", team := "Red Bull Racing"
              time := stripDays "0 days 01:30:00.123000" })
    ∧ (cmpSession.results.filter (fun r => r.position == some 1)
          = { position := some 1, abbreviation := some "VER"
              teamName := some "Red Bull Racing"
              time := some "0 days 01:30:00.123000" } :: [] →
        (({ position := some 1, abbreviation := some "VER"
            teamName := some "Red Bull Racing"
            time := some "0 days 01:30:00.123000" } : ResultRow).abbreviation = none
          ∨ ({ position := some 1, abbreviation := some "VER"
               teamName := some "Red Bull Racing"
               time := some "0 days 01:30:00.123000" } : ResultRow).teamName = none
          ∨ ({ position := some 1, abbreviation := some "VER"
               teamName := some "Red Bull Racing"
               time := some "0 days 01:30:00.123000" } : ResultRow).time = none) →
        winner_info_of cmpSession.results
          = { name := "N/A", team := "N/A", time := "N/A" }) :=
  compare_winner_info cmpLoad 2023 "Monaco" "VER" "HAM" cmpSession
    { position := some 1, abbreviation := some "VER"
      teamName := some "Red Bull Racing"
      time := some "0 days 01:30:00.123000" } []
    "VER" "Red Bull Racing" "0 days 01:30:00.123000"
    rfl (by decide) (by decide)
